import Mathlib

/-!
Verification development for two fragments of a collaborative spreadsheet
application: the document-session access/identity resolution helpers
(app/server/lib/DocSession.ts) and the browser-side view printing utility
(printing helpers for view sections).

Machine integers of the source (user ids, row ids) are modelled as Int;
string-valued enumerations as inductive types; TypeScript null/undefined as
Option; a thrown Error as Except.error carrying the message string.
-/

set_option autoImplicit false

/-! ## DocSession model (app/server/lib/DocSession.ts) -/

/-- Modelled from the spec: "Role: one of a small closed set of access levels
(e.g. owner, editor) governing permitted operations on a document."  The
definition of the Role type lives in app/common/roles, outside this excerpt. -/
inductive Role where
  | owners
  | editors
  | viewers
  deriving DecidableEq, Repr

/-- Modelled from the spec: browser settings (like timezone) carried by the
client; the BrowserSettings type lives in app/common/BrowserSettings, outside
this excerpt.  Only its presence/identity matters here. -/
structure BrowserSettings where
  timezone : Option String
  deriving DecidableEq, Repr

/-- Modelled from the spec: "the Client connection object and its
browser-settings cache" is an external collaborator.  It carries browser
settings and a cached user id (Client.getCachedUserId returns a number or
null, hence Option Int). -/
structure Client where
  browserSettings : BrowserSettings
  cachedUserId : Option Int
  deriving DecidableEq, Repr

/-- Cached document authorization record: the result of
Authorizer.getCachedAuth, whose access field may be null (hence Option). -/
structure DocAuthResult where
  access : Option Role
  deriving DecidableEq, Repr

/-- Modelled from the spec: "Authorizer: external collaborator that resolves
and caches a user identity and role for a document."  getUserId and
getCachedAuth are modelled as the data they return. -/
structure Authorizer where
  userId : Option Int
  cachedAuth : DocAuthResult
  deriving DecidableEq, Repr

/-- A request that has passed user and doc-access middleware: it carries a
user id and possibly cached doc authorization (req.docAuth may be absent). -/
structure RequestWithLogin where
  userId : Int
  docAuth : Option DocAuthResult
  deriving DecidableEq, Repr

/-- The three exceptional session modes of OptDocSession.mode. -/
inductive SessionMode where
  | nascent
  | plugin
  | system
  deriving DecidableEq, Repr

/-- OptDocSession (DocSession.ts): allows certain ActiveDoc operations to work
with or without an open document.  Optional TypeScript fields are Option. -/
structure OptDocSession where
  client : Option Client
  shouldBundleActions : Option Bool
  linkId : Option Int
  browserSettings : Option BrowserSettings
  req : Option RequestWithLogin
  mode : Option SessionMode
  authorizer : Option Authorizer
  deriving DecidableEq, Repr

/-- makeOptDocSession (DocSession.ts): builds a session from a possibly null
client, defaulting browserSettings from the client when the client is present
and no browserSettings argument was given. -/
def makeOptDocSession (client : Option Client) (browserSettings : Option BrowserSettings) :
    OptDocSession :=
  let bs : Option BrowserSettings :=
    match client, browserSettings with
    | some c, none => some c.browserSettings
    | _, b => b
  { client := client
    shouldBundleActions := none
    linkId := none
    browserSettings := bs
    req := none
    mode := none
    authorizer := none }

/-- The options record accepted by makeExceptionalDocSession. -/
structure ExceptionalDocSessionOptions where
  client : Option Client
  req : Option RequestWithLogin
  browserSettings : Option BrowserSettings
  deriving DecidableEq, Repr

/-- makeExceptionalDocSession (DocSession.ts): create an OptDocSession with
special access rights (mode nascent, plugin or system), built on
makeOptDocSession with the mode and req fields then set. -/
def makeExceptionalDocSession (mode : SessionMode) (options : ExceptionalDocSessionOptions) :
    OptDocSession :=
  let docSession := makeOptDocSession options.client options.browserSettings
  { docSession with mode := some mode, req := options.req }

/-- docSessionFromRequest (DocSession.ts): an OptDocSession from a request. -/
def docSessionFromRequest (req : RequestWithLogin) : OptDocSession :=
  { client := none
    shouldBundleActions := none
    linkId := none
    browserSettings := none
    req := some req
    mode := none
    authorizer := none }

/-- Modelled from the spec: getUserId (app/server/lib/Authorizer.ts, outside
this excerpt) extracts the user id recorded on a request that has passed the
user middleware. -/
def getUserId (req : RequestWithLogin) : Int := req.userId

/-- getDocSessionUserId (DocSession.ts): extract the user id from an
OptDocSession, using the Authorizer if available, else the request, else the
Client, and null if none is available. -/
def getDocSessionUserId (docSession : OptDocSession) : Option Int :=
  match docSession.authorizer with
  | some a => a.userId
  | none =>
    match docSession.req with
    | some r => some (getUserId r)
    | none =>
      match docSession.client with
      | some c => c.cachedUserId
      | none => none

/-- getDocSessionAccess (DocSession.ts): extract the user role from an
OptDocSession.  Exceptional modes short-circuit; otherwise the authorizer is
consulted, then the request; a missing source or missing access throws. -/
def getDocSessionAccess (docSession : OptDocSession) : Except String Role :=
  if docSession.mode = some SessionMode.nascent ∨ docSession.mode = some SessionMode.system then
    Except.ok Role.owners
  else if docSession.mode = some SessionMode.plugin then
    Except.ok Role.editors
  else
    match docSession.authorizer with
    | some a =>
      match a.cachedAuth.access with
      | some access => Except.ok access
      | none => Except.error "getDocSessionAccess expected authorizer.getCachedAuth"
    | none =>
      match docSession.req with
      | some r =>
        match r.docAuth.bind (fun d => d.access) with
        | some access => Except.ok access
        | none => Except.error "getDocSessionAccess expected req.docAuth.access"
      | none => Except.error "getDocSessionAccess could not find access information in DocSession"

/-! ## Printing model (the view-section printing utility)

DOM elements are identified by natural numbers.  The class state of the DOM is
a membership function (an element of DOMTokenList semantics: a set of tokens),
and classList.toggle with an explicit force argument sets the presence of the
token to that argument.  The static tree structure is given by an ancestors
function: the strict ancestor chain of each element, nearest parent first,
which is exactly the chain walked by the while loop over parentElement. -/

/-- The fixed layout data of a print run: the dom elements of the layout
boxes enumerated by layout.forEachBox, the section element to print
(.viewsection_content), the strict ancestor chain of each element, and, for
scrolly-based views, the element with class print-all-rows that the view
instance renders inside the section when preparing to print (none for views
that render no such element). -/
structure PrintLayout where
  boxes : List Nat
  sectionElem : Nat
  ancestors : Nat → List Nat
  scrollyElem : Option Nat

/-- The mutable DOM state the printing code touches: per-element class
membership and whether the print-all-rows element is currently rendered. -/
structure PrintState where
  classes : Nat → String → Bool
  allRowsRendered : Bool

/-- elem.classList.toggle(cls, force): set the presence of class cls on
element e to the boolean onOff. -/
def setClass (st : PrintState) (e : Nat) (cls : String) (onOff : Bool) : PrintState :=
  { st with classes := fun x c => if x = e ∧ c = cls then onOff else st.classes x c }

/-- a.contains(b): DOM containment, reflexive and via the ancestor chain. -/
def domContains (L : PrintLayout) (a b : Nat) : Prop :=
  a = b ∨ a ∈ L.ancestors b

instance (L : PrintLayout) (a b : Nat) : Decidable (domContains L a b) := by
  unfold domContains; infer_instance

/-- Modelled from the spec: viewInstance.prepareToPrint (BaseView, outside
this excerpt) lets the view update its rendering; for scrolly-based views,
turning it on renders all rows (creating the print-all-rows element inside
the section) and turning it off restores normal scrolly rendering.  It does
not change classes of the layout elements. -/
def viewPrepare (L : PrintLayout) (onOff : Bool) (st : PrintState) : PrintState :=
  { st with allRowsRendered := onOff && L.scrollyElem.isSome }

/-- sectionElem.querySelector(".print-all-rows"): the print-all-rows element
when it is currently rendered, else none. -/
def queryPrintAllRows (L : PrintLayout) (st : PrintState) : Option Nat :=
  if st.allRowsRendered then L.scrollyElem else none

/-- Events emitted by the printing code, in execution order: class toggles on
layout boxes, the section marking, the call into the view instance, the class
toggles on ancestors, and the production of printed output by the browser. -/
inductive PEvent where
  | toggleHide (box : Nat) (onOff : Bool)
  | toggleWidget (onOff : Bool)
  | viewPrepareCall (onOff : Bool)
  | toggleParent (e : Nat) (onOff : Bool)
  | output
  deriving DecidableEq, Repr

/-- The toggleHide events emitted by the forEachBox loop: one per layout box
whose dom does not contain the section element, in box order. -/
def boxEvents (L : PrintLayout) (onOff : Bool) : List PEvent :=
  L.boxes.filterMap (fun b =>
    if domContains L b L.sectionElem then none else some (PEvent.toggleHide b onOff))

/-- prepareToPrint (printViewSection, part_000) as a state transformer that
also records the trace of events, mirroring the statement order of the
source: hide non-containing boxes, mark the section, let the view instance
update its rendering, find the key element, then walk its ancestors. -/
def prepareToPrintRun (L : PrintLayout) (onOff : Bool) (st : PrintState) :
    PrintState × List PEvent :=
  let stBoxes := L.boxes.foldl
    (fun s b => if domContains L b L.sectionElem then s else setClass s b "print-hide" onOff) st
  let stWidget := setClass stBoxes L.sectionElem "print-widget" onOff
  let stView := viewPrepare L onOff stWidget
  let key := (queryPrintAllRows L stView).getD L.sectionElem
  let stParents := (L.ancestors key).foldl (fun s e => setClass s e "print-parent" onOff) stView
  (stParents,
    boxEvents L onOff
      ++ [PEvent.toggleWidget onOff, PEvent.viewPrepareCall onOff]
      ++ (L.ancestors key).map (fun e => PEvent.toggleParent e onOff))

/-- The state effect of prepareToPrint. -/
def prepareToPrint (L : PrintLayout) (onOff : Bool) (st : PrintState) : PrintState :=
  (prepareToPrintRun L onOff st).1

/-- The key element of a print pass: the print-all-rows element when the view
renders one, else the section element itself.  For the pass that turns
printing on this is what querySelector finds after the view instance has
prepared; for the pass that turns it off the rendered rows are gone again and
the key element is always the section. -/
def printKeyElem (L : PrintLayout) : Nat :=
  L.scrollyElem.getD L.sectionElem

/-- The key element used by the pass with the given onOff flag. -/
def passKeyElem (L : PrintLayout) (onOff : Bool) : Nat :=
  if onOff then printKeyElem L else L.sectionElem

/-- The toggleParent events of a pass. -/
def parentEvents (L : PrintLayout) (onOff : Bool) : List PEvent :=
  (L.ancestors (passKeyElem L onOff)).map (fun e => PEvent.toggleParent e onOff)

/-- printViewSection (part_000): a beforeprint handler runs
prepareToPrint(true), the browser produces the printed output, and the
afterprint handler runs prepareToPrint(false) unless window.debugPrinting is
set.  The result is the final DOM state and the full event trace. -/
def printViewSectionRun (L : PrintLayout) (debugPrinting : Bool) (st : PrintState) :
    PrintState × List PEvent :=
  let r1 := prepareToPrintRun L true st
  if debugPrinting then
    (r1.1, r1.2 ++ [PEvent.output])
  else
    let r2 := prepareToPrintRun L false r1.1
    (r2.1, r1.2 ++ [PEvent.output] ++ r2.2)

/-! ## renderAllRows model (part_000) -/

/-- RowId (part_000): a row id is a number or the special id "new". -/
inductive RowId where
  | num (n : Int)
  | new
  deriving DecidableEq, Repr

/-- The floating row model: its _index observable and its assigned row id,
both initially null (createFloatingRowModel(null)). -/
structure FloatingRowModel where
  index : Option Nat
  rowId : Option Int
  deriving DecidableEq, Repr

/-- The div produced by renderAllRows: its class name and its innerHTML. -/
structure PrintDiv where
  className : String
  innerHTML : String
  deriving DecidableEq, Repr

/-- One step of the forEach loop of renderAllRows: skip the sentinel new row;
otherwise set the model index, assign the row, render it and append the outer
HTML.  renderRow stands for the composite of the row-rendering function and
taking outerHTML of the produced element. -/
def renderRowStep (renderRow : FloatingRowModel → String)
    (acc : FloatingRowModel × List String) (p : Nat × RowId) :
    FloatingRowModel × List String :=
  match p.2 with
  | RowId.new => acc
  | RowId.num n =>
    let rm := { acc.1 with index := some p.1, rowId := some n }
    (rm, acc.2 ++ [renderRow rm])

/-- renderAllRows (part_000): render each requested row with one reused
floating row model, collect the outer HTML of each rendered row, and return a
div of class print-all-rows whose innerHTML joins them with newlines. -/
def renderAllRows (renderRow : FloatingRowModel → String) (rowIds : List RowId) : PrintDiv :=
  let r := rowIds.enum.foldl (renderRowStep renderRow) (⟨none, none⟩, [])
  { className := "print-all-rows", innerHTML := String.intercalate "\n" r.2 }

/-! ## Concrete instances used to exercise the theorems -/

/-- A session with every optional field absent. -/
def emptySession : OptDocSession :=
  { client := none, shouldBundleActions := none, linkId := none, browserSettings := none,
    req := none, mode := none, authorizer := none }

/-- A concrete client with a cached user id. -/
def clientW : Client :=
  { browserSettings := { timezone := some "UTC" }, cachedUserId := some 5 }

/-- A concrete authorizer whose cached auth grants the viewers role. -/
def authW : Authorizer :=
  { userId := some 7, cachedAuth := { access := some Role.viewers } }

/-- A concrete request whose docAuth grants the editors role. -/
def reqW : RequestWithLogin :=
  { userId := 11, docAuth := some { access := some Role.editors } }

/-- A nascent-mode session that nevertheless carries an authorizer (whose
cached role is only viewers), a request and a client. -/
def sessNascentAuth : OptDocSession :=
  { emptySession with
    mode := some SessionMode.nascent
    authorizer := some authW
    req := some reqW
    client := some clientW }

/-- A nascent-mode session with no other source at all. -/
def sessNascentBare : OptDocSession :=
  { emptySession with mode := some SessionMode.nascent }

/-- A session whose only source is an authorizer. -/
def sessAuth : OptDocSession :=
  { emptySession with authorizer := some authW }

/-- A session whose only source is a request. -/
def sessReq : OptDocSession :=
  { emptySession with req := some reqW }

/-- A session whose only source is a live client connection. -/
def sessClient : OptDocSession :=
  { emptySession with client := some clientW }

/-- A DOM state in which no element carries any class. -/
def blankPrintState : PrintState :=
  { classes := fun _ _ => false, allRowsRendered := false }

/-- A plain layout without scrolly: box 1 is the parent of section 2 (so box 1
contains the section), box 0 is disjoint from it. -/
def layoutPlain : PrintLayout :=
  { boxes := [0, 1]
    sectionElem := 2
    ancestors := fun n => if n = 2 then [1] else []
    scrollyElem := none }

/-- A layout with a single layout box that contains the section. -/
def layoutNested : PrintLayout :=
  { boxes := [1]
    sectionElem := 2
    ancestors := fun n => if n = 2 then [1] else []
    scrollyElem := none }

/-- A scrolly layout: the print-all-rows element 3 sits inside section 2,
which sits inside box 1. -/
def layoutScrolly : PrintLayout :=
  { boxes := [1]
    sectionElem := 2
    ancestors := fun n => if n = 3 then [2, 1] else if n = 2 then [1] else []
    scrollyElem := some 3 }

/-! ## Helper lemmas about the printing model -/

theorem setClass_classes (st : PrintState) (e : Nat) (cls : String) (onOff : Bool)
    (x : Nat) (c : String) :
    (setClass st e cls onOff).classes x c
      = if x = e ∧ c = cls then onOff else st.classes x c := rfl

theorem foldl_guard_setClass (L : PrintLayout) (cls : String) (onOff : Bool) (bs : List Nat) :
    ∀ (st : PrintState) (e : Nat) (c : String),
      ((bs.foldl (fun s b =>
          if domContains L b L.sectionElem then s else setClass s b cls onOff) st).classes e c)
        = if e ∈ bs ∧ ¬ domContains L e L.sectionElem ∧ c = cls then onOff
          else st.classes e c := by
  induction bs with
  | nil => intro st e c; simp
  | cons b bs ih =>
    intro st e c
    rw [List.foldl_cons, ih]
    by_cases hb : domContains L b L.sectionElem <;>
      by_cases he : e ∈ bs <;>
      by_cases hP : domContains L e L.sectionElem <;>
      by_cases hc : c = cls <;>
      by_cases heb : e = b <;>
      simp_all [setClass_classes]

theorem foldl_setClass (cls : String) (onOff : Bool) (as : List Nat) :
    ∀ (st : PrintState) (e : Nat) (c : String),
      ((as.foldl (fun s x => setClass s x cls onOff) st).classes e c)
        = if e ∈ as ∧ c = cls then onOff else st.classes e c := by
  induction as with
  | nil => intro st e c; simp
  | cons a as ih =>
    intro st e c
    rw [List.foldl_cons, ih]
    by_cases he : e ∈ as <;> by_cases hc : c = cls <;> by_cases hea : e = a <;>
      simp_all [setClass_classes]

theorem passKey_eq (L : PrintLayout) (onOff : Bool) (st : PrintState) :
    (queryPrintAllRows L (viewPrepare L onOff st)).getD L.sectionElem = passKeyElem L onOff := by
  cases onOff <;> cases h : L.scrollyElem <;>
    simp [queryPrintAllRows, viewPrepare, passKeyElem, printKeyElem, h]

/-- Full characterisation of the class state after one prepareToPrint pass:
the pass sets print-parent presence on the ancestors of its key element,
print-widget presence on the section, and print-hide presence on the layout
boxes that do not contain the section, all to the onOff flag; every other
class membership is untouched. -/
theorem prepareToPrint_classes (L : PrintLayout) (onOff : Bool) (st : PrintState)
    (e : Nat) (c : String) :
    (prepareToPrint L onOff st).classes e c
      = if e ∈ L.ancestors (passKeyElem L onOff) ∧ c = "print-parent" then onOff
        else if e = L.sectionElem ∧ c = "print-widget" then onOff
        else if e ∈ L.boxes ∧ ¬ domContains L e L.sectionElem ∧ c = "print-hide" then onOff
        else st.classes e c := by
  unfold prepareToPrint prepareToPrintRun
  dsimp only
  rw [passKey_eq, foldl_setClass]
  dsimp only [viewPrepare]
  rw [setClass_classes, foldl_guard_setClass]

/-- The events of one prepareToPrint pass, in order: box hiding, section
marking, the call into the view instance, ancestor marking. -/
theorem prepareToPrintRun_events (L : PrintLayout) (onOff : Bool) (st : PrintState) :
    (prepareToPrintRun L onOff st).2
      = boxEvents L onOff
        ++ [PEvent.toggleWidget onOff, PEvent.viewPrepareCall onOff]
        ++ parentEvents L onOff := by
  unfold prepareToPrintRun parentEvents
  dsimp only
  rw [passKey_eq]

theorem mem_boxEvents {L : PrintLayout} {onOff : Bool} {x : PEvent}
    (h : x ∈ boxEvents L onOff) : ∃ b, x = PEvent.toggleHide b onOff := by
  unfold boxEvents at h
  rw [List.mem_filterMap] at h
  obtain ⟨b, _, hfb⟩ := h
  by_cases hc : domContains L b L.sectionElem
  · simp [hc] at hfb
  · simp [hc] at hfb
    exact ⟨b, hfb.symm⟩

theorem mem_parentEvents {L : PrintLayout} {onOff : Bool} {x : PEvent}
    (h : x ∈ parentEvents L onOff) : ∃ e, x = PEvent.toggleParent e onOff := by
  unfold parentEvents at h
  rw [List.mem_map] at h
  obtain ⟨e, _, hfe⟩ := h
  exact ⟨e, hfe.symm⟩

theorem renderRowStep_foldl (renderRow : FloatingRowModel → String) (l : List (Nat × RowId)) :
    ∀ (rm : FloatingRowModel) (acc : List String),
      (l.foldl (renderRowStep renderRow) (rm, acc)).2
        = acc ++ l.filterMap (fun p =>
            match p.2 with
            | RowId.new => none
            | RowId.num n => some (renderRow { index := some p.1, rowId := some n })) := by
  induction l with
  | nil => intro rm acc; simp
  | cons p l ih =>
    intro rm acc
    obtain ⟨i, r⟩ := p
    cases r with
    | num n =>
      rw [List.foldl_cons]
      dsimp only [renderRowStep]
      rw [ih]
      simp
    | new =>
      rw [List.foldl_cons]
      dsimp only [renderRowStep]
      rw [ih]
      simp

/-! ## Theorems -/

/-- Claim C1: for every OptDocSession whose mode field is set,
getDocSessionAccess bypasses normal role resolution and never consults the
authorizer or the request: any two sessions with the same set mode get the
same result, which is owners for nascent or system mode and editors for
plugin mode. -/
theorem claim_C1_exceptional_modes (s t : OptDocSession) (m : SessionMode)
    (hs : s.mode = some m) (ht : t.mode = some m) :
    getDocSessionAccess s = getDocSessionAccess t
    ∧ ((m = SessionMode.nascent ∨ m = SessionMode.system) →
        getDocSessionAccess s = Except.ok Role.owners)
    ∧ (m = SessionMode.plugin → getDocSessionAccess s = Except.ok Role.editors) := by
  cases m <;> simp [getDocSessionAccess, hs, ht]

/-- Witness for claim C1: a nascent session carrying an authorizer whose
cached role is only viewers still resolves to owners, and agrees with a bare
nascent session. -/
theorem claim_C1_exceptional_modes_witness :
    getDocSessionAccess sessNascentAuth = getDocSessionAccess sessNascentBare
    ∧ getDocSessionAccess sessNascentAuth = Except.ok Role.owners :=
  ⟨(claim_C1_exceptional_modes sessNascentAuth sessNascentBare SessionMode.nascent rfl rfl).1,
   (claim_C1_exceptional_modes sessNascentAuth sessNascentBare SessionMode.nascent rfl rfl).2.1
     (Or.inl rfl)⟩

/-- Claim C2: getDocSessionUserId resolves the user identity with a fixed
source precedence: authorizer first, then request, then client, and null when
none of the three sources is present. -/
theorem claim_C2_userid_precedence (s : OptDocSession) :
    (∀ a, s.authorizer = some a → getDocSessionUserId s = a.userId)
    ∧ (s.authorizer = none → ∀ r, s.req = some r →
        getDocSessionUserId s = some (getUserId r))
    ∧ (s.authorizer = none → s.req = none → ∀ c, s.client = some c →
        getDocSessionUserId s = c.cachedUserId)
    ∧ (s.authorizer = none → s.req = none → s.client = none →
        getDocSessionUserId s = none) := by
  refine ⟨?_, ?_, ?_, ?_⟩ <;> intros <;> simp_all [getDocSessionUserId]

/-- Witness for claim C2: each branch of the precedence exercised on a
concrete session. -/
theorem claim_C2_userid_precedence_witness :
    getDocSessionUserId sessAuth = some 7
    ∧ getDocSessionUserId sessReq = some 11
    ∧ getDocSessionUserId sessClient = some 5
    ∧ getDocSessionUserId emptySession = none :=
  ⟨(claim_C2_userid_precedence sessAuth).1 authW rfl,
   (claim_C2_userid_precedence sessReq).2.1 rfl reqW rfl,
   (claim_C2_userid_precedence sessClient).2.2.1 rfl rfl clientW rfl,
   (claim_C2_userid_precedence emptySession).2.2.2 rfl rfl rfl⟩

/-- Counterexample to claim C3: a session with no mode, no authorizer and no
request but with a live client connection present does not get its access
role resolved from the client; getDocSessionAccess throws instead. -/
theorem claim_C3_counterexample :
    sessClient.client = some clientW
    ∧ sessClient.mode = none
    ∧ sessClient.authorizer = none
    ∧ sessClient.req = none
    ∧ getDocSessionAccess sessClient
      = Except.error "getDocSessionAccess could not find access information in DocSession" :=
  ⟨rfl, rfl, rfl, rfl, rfl⟩

/-- Claim C3 as amended: for every OptDocSession with no exceptional mode, no
authorizer and no request, getDocSessionAccess throws the
could-not-find-access error regardless of the client; the client connection
is a source for the user identity but never for the access role. -/
theorem claim_C3_client_not_access_source (s : OptDocSession)
    (hm : s.mode = none) (ha : s.authorizer = none) (hr : s.req = none) :
    getDocSessionAccess s
      = Except.error "getDocSessionAccess could not find access information in DocSession" := by
  simp [getDocSessionAccess, hm, ha, hr]

/-- Witness for amended claim C3, at a session carrying a client. -/
theorem claim_C3_client_not_access_source_witness :
    getDocSessionAccess sessClient
      = Except.error "getDocSessionAccess could not find access information in DocSession" :=
  claim_C3_client_not_access_source sessClient rfl rfl rfl

/-- Claim C4: getDocSessionAccess throws if and only if the session has no
exceptional mode and either no authorizer and no request are present, or the
consulted source (the cached auth of the authorizer when present, else the
docAuth of the request) has a missing access field; in every other case it
returns a role. -/
theorem claim_C4_throw_characterisation (s : OptDocSession) :
    (∃ msg, getDocSessionAccess s = Except.error msg) ↔
      (s.mode = none ∧
        ((s.authorizer = none ∧ s.req = none)
          ∨ (∃ a, s.authorizer = some a ∧ a.cachedAuth.access = none)
          ∨ (s.authorizer = none ∧
              ∃ r, s.req = some r ∧ r.docAuth.bind (fun d => d.access) = none))) := by
  obtain ⟨cl, sba, lid, bs, req, mode, auth⟩ := s
  cases mode with
  | some m => cases m <;> simp [getDocSessionAccess]
  | none =>
    cases auth with
    | some a => cases h : a.cachedAuth.access <;> simp [getDocSessionAccess, h]
    | none =>
      cases req with
      | none => simp [getDocSessionAccess]
      | some r =>
        cases hd : r.docAuth with
        | none => simp [getDocSessionAccess, hd]
        | some d => cases hda : d.access <;> simp [getDocSessionAccess, hd, hda]

/-- Claim C8: makeOptDocSession tolerates a missing client: the resulting
session has a null client and no browserSettings, and getDocSessionUserId on
it returns null rather than failing. -/
theorem claim_C8_null_client_tolerated :
    (makeOptDocSession none none).client = none
    ∧ (makeOptDocSession none none).browserSettings = none
    ∧ getDocSessionUserId (makeOptDocSession none none) = none :=
  ⟨rfl, rfl, rfl⟩

/-- Claim C10: makeOptDocSession defaults browserSettings from the client
when a client is provided and browserSettings is not, uses browserSettings as
given when provided, and makeExceptionalDocSession builds on its result
setting exactly the mode and req fields. -/
theorem claim_C10_session_construction (c : Client) (cl : Option Client)
    (b : BrowserSettings) (m : SessionMode) (o : ExceptionalDocSessionOptions) :
    (makeOptDocSession (some c) none).browserSettings = some c.browserSettings
    ∧ (makeOptDocSession cl (some b)).browserSettings = some b
    ∧ makeExceptionalDocSession m o
      = { makeOptDocSession o.client o.browserSettings with mode := some m, req := o.req } := by
  refine ⟨rfl, ?_, rfl⟩
  cases cl <;> rfl

/-- Claim C5: printViewSection temporarily switches the view to full
rendering around the browser print: in the event trace, the beforeprint
handler runs prepareToPrint(true), whose call into
viewInstance.prepareToPrint(true) precedes the printed output, and the
afterprint handler runs prepareToPrint(false) (calling
viewInstance.prepareToPrint(false) after the output) except when
window.debugPrinting is set, in which case no restoring call occurs. -/
theorem claim_C5_print_sequence (L : PrintLayout) (debugPrinting : Bool) (st : PrintState) :
    ∃ pre mid post,
      (printViewSectionRun L debugPrinting st).2
        = pre ++ PEvent.viewPrepareCall true :: (mid ++ PEvent.output :: post)
      ∧ PEvent.output ∉ pre
      ∧ PEvent.output ∉ mid
      ∧ (debugPrinting = false →
          PEvent.viewPrepareCall false ∈ post
          ∧ (printViewSectionRun L debugPrinting st).1
            = prepareToPrint L false (prepareToPrint L true st))
      ∧ (debugPrinting = true →
          PEvent.viewPrepareCall false ∉ pre
          ∧ PEvent.viewPrepareCall false ∉ mid
          ∧ post = []) := by
  have hOutBox : PEvent.output ∉ boxEvents L true := by
    intro h
    obtain ⟨b, hb⟩ := mem_boxEvents h
    simp at hb
  have hOutPar : PEvent.output ∉ parentEvents L true := by
    intro h
    obtain ⟨e, he⟩ := mem_parentEvents h
    simp at he
  have hVpBox : PEvent.viewPrepareCall false ∉ boxEvents L true := by
    intro h
    obtain ⟨b, hb⟩ := mem_boxEvents h
    simp at hb
  have hVpPar : PEvent.viewPrepareCall false ∉ parentEvents L true := by
    intro h
    obtain ⟨e, he⟩ := mem_parentEvents h
    simp at he
  cases debugPrinting with
  | false =>
    refine ⟨boxEvents L true ++ [PEvent.toggleWidget true], parentEvents L true,
      (prepareToPrintRun L false (prepareToPrint L true st)).2, ?_, ?_, ?_, ?_, ?_⟩
    · unfold printViewSectionRun
      dsimp only
      rw [prepareToPrintRun_events L true st]
      simp [prepareToPrint]
    · simp [hOutBox]
    · exact hOutPar
    · intro _
      refine ⟨?_, rfl⟩
      rw [prepareToPrintRun_events]
      simp
    · intro h
      exact absurd h (by decide)
  | true =>
    refine ⟨boxEvents L true ++ [PEvent.toggleWidget true], parentEvents L true, [],
      ?_, ?_, ?_, ?_, ?_⟩
    · unfold printViewSectionRun
      dsimp only
      rw [prepareToPrintRun_events L true st]
      simp
    · simp [hOutBox]
    · exact hOutPar
    · intro h
      exact absurd h (by decide)
    · intro _
      refine ⟨?_, hVpPar, rfl⟩
      simp [hVpBox]

/-- Claim C6 as amended: after prepareToPrint(true), exactly the layout boxes
whose dom does not contain the section element have the print-hide class, the
section element has the print-widget class, and every ancestor of the key
element (the print-all-rows element if present, else the section element) has
the print-parent class; layout boxes that do contain the section element do
not receive the print-hide class (their print-hide state is unchanged),
though such a box still receives print-parent when it is an ancestor of the
key element. -/
theorem claim_C6_prepare_on_effect (L : PrintLayout) (st : PrintState) :
    (∀ b, b ∈ L.boxes → ¬ domContains L b L.sectionElem →
        (prepareToPrint L true st).classes b "print-hide" = true)
    ∧ (prepareToPrint L true st).classes L.sectionElem "print-widget" = true
    ∧ (∀ e, e ∈ L.ancestors (printKeyElem L) →
        (prepareToPrint L true st).classes e "print-parent" = true)
    ∧ (∀ e, st.classes e "print-hide" = false →
        ((prepareToPrint L true st).classes e "print-hide" = true ↔
          e ∈ L.boxes ∧ ¬ domContains L e L.sectionElem))
    ∧ (∀ b, b ∈ L.boxes → domContains L b L.sectionElem →
        (prepareToPrint L true st).classes b "print-hide" = st.classes b "print-hide") := by
  have h1 : ("print-hide" : String) ≠ "print-parent" := by decide
  have h2 : ("print-widget" : String) ≠ "print-parent" := by decide
  have h3 : ("print-hide" : String) ≠ "print-widget" := by decide
  refine ⟨?_, ?_, ?_, ?_, ?_⟩
  · intro b hb hnc
    rw [prepareToPrint_classes]
    split_ifs with hA hB hC
    · exact absurd hA.2 h1
    · exact absurd hB.2 h3
    · rfl
    · exact absurd ⟨hb, hnc, rfl⟩ hC
  · rw [prepareToPrint_classes]
    split_ifs with hA hB hC
    · exact absurd hA.2 h2
    · rfl
    · exact absurd ⟨rfl, rfl⟩ hB
    · exact absurd ⟨rfl, rfl⟩ hB
  · intro e he
    rw [prepareToPrint_classes]
    split_ifs with hA hB hC
    · rfl
    · exact absurd ⟨he, rfl⟩ hA
    · exact absurd ⟨he, rfl⟩ hA
    · exact absurd ⟨he, rfl⟩ hA
  · intro e h0
    rw [prepareToPrint_classes]
    split_ifs with hA hB hC
    · exact absurd hA.2 h1
    · exact absurd hB.2 h3
    · exact iff_of_true rfl ⟨hC.1, hC.2.1⟩
    · rw [h0]
      simp only [Bool.false_eq_true, false_iff]
      intro hcon
      exact hC ⟨hcon.1, hcon.2, rfl⟩
  · intro b hb hc
    rw [prepareToPrint_classes]
    split_ifs with hA hB hC
    · exact absurd hA.2 h1
    · exact absurd hB.2 h3
    · exact absurd hc hC.2.1
    · rfl

/-- Witness for amended claim C6, on a concrete layout: the disjoint box is
hidden, the section is marked, the containing box is marked as a print
parent, and the containing box does not gain print-hide. -/
theorem claim_C6_prepare_on_effect_witness :
    (prepareToPrint layoutPlain true blankPrintState).classes 0 "print-hide" = true
    ∧ (prepareToPrint layoutPlain true blankPrintState).classes 2 "print-widget" = true
    ∧ (prepareToPrint layoutPlain true blankPrintState).classes 1 "print-parent" = true
    ∧ (prepareToPrint layoutPlain true blankPrintState).classes 1 "print-hide"
        = blankPrintState.classes 1 "print-hide" :=
  ⟨(claim_C6_prepare_on_effect layoutPlain blankPrintState).1 0 (by decide) (by decide),
   (claim_C6_prepare_on_effect layoutPlain blankPrintState).2.1,
   (claim_C6_prepare_on_effect layoutPlain blankPrintState).2.2.1 1 (by decide),
   (claim_C6_prepare_on_effect layoutPlain blankPrintState).2.2.2.2 1 (by decide) (by decide)⟩

/-- Counterexample to claim C6 as stated: in a layout whose single box
contains the section, that box has its class state changed by
prepareToPrint(true) all the same, because it is an ancestor of the key
element and so receives print-parent. -/
theorem claim_C6_counterexample :
    (1 ∈ layoutNested.boxes)
    ∧ domContains layoutNested 1 layoutNested.sectionElem
    ∧ blankPrintState.classes 1 "print-parent" = false
    ∧ (prepareToPrint layoutNested true blankPrintState).classes 1 "print-parent" = true :=
  ⟨by decide, by decide, rfl, by decide⟩

/-- Claim C7: renderAllRows returns a div with class print-all-rows whose
innerHTML is the newline-joined concatenation of the renderings of the
floating row model assigned to each row id, in input order, with every new
row id skipped. -/
theorem claim_C7_renderAllRows (renderRow : FloatingRowModel → String) (rowIds : List RowId) :
    renderAllRows renderRow rowIds
      = { className := "print-all-rows"
          innerHTML := String.intercalate "\n"
            (rowIds.enum.filterMap (fun p =>
              match p.2 with
              | RowId.new => none
              | RowId.num n => some (renderRow { index := some p.1, rowId := some n }))) } := by
  unfold renderAllRows
  dsimp only
  rw [renderRowStep_foldl]
  simp

/-- Claim C9 as amended: prepareToPrint(true) followed by prepareToPrint(false)
restores every class membership, provided the affected elements carry none of
the three print classes initially and the view renders no print-all-rows
element (so the key element is the same in both passes; when a print-all-rows
element is rendered by the first pass and removed before the second, the
section element and the elements between it and the removed element keep
print-parent, as the counterexample shows). -/
theorem claim_C9_roundtrip (L : PrintLayout) (st : PrintState)
    (hs : L.scrollyElem = none)
    (h1 : ∀ b, b ∈ L.boxes → st.classes b "print-hide" = false)
    (h2 : st.classes L.sectionElem "print-widget" = false)
    (h3 : ∀ e, e ∈ L.ancestors L.sectionElem → st.classes e "print-parent" = false) :
    ∀ e c, (prepareToPrint L false (prepareToPrint L true st)).classes e c = st.classes e c := by
  intro e c
  have hkey : passKeyElem L true = L.sectionElem := by
    simp [passKeyElem, printKeyElem, hs]
  have hkey2 : passKeyElem L false = L.sectionElem := rfl
  rw [prepareToPrint_classes, prepareToPrint_classes, hkey, hkey2]
  split_ifs with hA hB hC
  · rw [hA.2]
    exact (h3 e hA.1).symm
  · rw [hB.1, hB.2]
    exact h2.symm
  · rw [hC.2.2]
    exact (h1 e hC.1).symm
  · rfl

/-- Witness for amended claim C9 on a concrete scrolly-free layout. -/
theorem claim_C9_roundtrip_witness :
    (prepareToPrint layoutPlain false
        (prepareToPrint layoutPlain true blankPrintState)).classes 2 "print-widget"
      = blankPrintState.classes 2 "print-widget" :=
  claim_C9_roundtrip layoutPlain blankPrintState rfl (fun _ _ => rfl) rfl (fun _ _ => rfl)
    2 "print-widget"

/-- Counterexample to claim C9 as stated: on a scrolly layout, starting from a
DOM with no classes at all, the round trip leaves print-parent on the section
element, because the restoring pass walks the ancestors of the section (the
print-all-rows element having been removed) while the first pass walked the
ancestors of the print-all-rows element, which include the section itself. -/
theorem claim_C9_counterexample :
    blankPrintState.classes 2 "print-parent" = false
    ∧ layoutScrolly.sectionElem = 2
    ∧ (prepareToPrint layoutScrolly false
        (prepareToPrint layoutScrolly true blankPrintState)).classes 2 "print-parent" = true :=
  ⟨rfl, rfl, by decide⟩
